import Mathlib

/-!
# celestia-da: bootstrap of the gRPC Data Availability service

A shallow embedding of `cmd/celestia-da/main.go`: the function `serve`, and the
pre-run hook installed by `WithDataAvailabilityService`.

* Go strings are byte sequences (`GoString`); `[]byte(s)` and `len(s)` act on
  those bytes.
* Calls that leave the program (the RPC client, the namespace constructor of
  the node library, `net.Listen`, the gRPC serve loop, the listener's close)
  take their results from a `Host` record; `serve` is a function of the host
  and of its five string arguments, and yields the sequence of calls made
  together with the way it ended.
* `log.Fatalln` writes the message and ends the process with `os.Exit(1)`;
  deferred functions do not run on that path.
* The serve loop `srv.Serve(lis)` closes the listener it is given before it
  returns; a close of a listener that is closed already closes nothing.
* `encoding/hex` and `errors.Is` follow the Go standard library; the flag sets
  follow package `pflag`. The command framework parses the command line into
  the flags of the command and then calls its `PreRun` hook; a goroutine the
  hook starts is recorded as the call of `serve` it makes.
-/

namespace CelestiaDA

/-! ## Go strings -/

/-- A Go string: an immutable sequence of bytes. -/
abbrev GoString := List Nat

/-- The Go string written as the literal `s` in the source (its UTF-8 bytes). -/
def goString (s : String) : GoString :=
  s.toUTF8.data.toList.map UInt8.toNat

/-! ## encoding/hex (Go standard library) -/

/-- Error values of `encoding/hex` and of the other callees, and what `fmt.Errorf`
with `%w` builds from them. A `sentinel` is a package-level `errors.New` value,
its name standing for its identity. -/
inductive GoError where
  | sentinel (name : String)
  | invalidByte (b : Nat)
  | unknownNetwork (network : GoString)
  | wrap (text : String) (inner : GoError)
  deriving DecidableEq, Repr

/-- The value `hex.ErrLength`. -/
def ErrLength : GoError :=
  GoError.sentinel "encoding/hex: odd length hex string"

/-- The value `grpc.ErrServerStopped`. -/
def ErrServerStopped : GoError :=
  GoError.sentinel "grpc: the server has been stopped"

/-- The function `fromHexChar` of `encoding/hex`: the value of one hex digit,
`none` where Go returns `false`. -/
def fromHexChar (c : Nat) : Option Nat :=
  if 48 ≤ c ∧ c ≤ 57 then some (c - 48)
  else if 97 ≤ c ∧ c ≤ 102 then some (c - 97 + 10)
  else if 65 ≤ c ∧ c ≤ 70 then some (c - 65 + 10)
  else none

/-- The result of `hex.Decode(dst, src)`: the buffer after the call, the number
of bytes written, and the error. -/
structure DecodeResult where
  dst : List Nat
  n : Nat
  err : Option GoError
  deriving DecidableEq, Repr

/-- The loop of `hex.Decode`, entered with `i` bytes already written: two
characters of `src` are consumed per step and one byte is stored at `dst[i]`;
a single character left at the end is reported as an invalid byte when it is
one, and as `ErrLength` otherwise. The buffer `serve` passes has `len(src)/2`
bytes, so every index written lies inside it. -/
def decodeLoop (dst : List Nat) (i : Nat) : List Nat → DecodeResult
  | [] => { dst := dst, n := i, err := none }
  | [p] =>
    match fromHexChar p with
    | none => { dst := dst, n := i, err := some (GoError.invalidByte p) }
    | some _ => { dst := dst, n := i, err := some ErrLength }
  | p :: q :: rest =>
    match fromHexChar p with
    | none => { dst := dst, n := i, err := some (GoError.invalidByte p) }
    | some a =>
      match fromHexChar q with
      | none => { dst := dst, n := i, err := some (GoError.invalidByte q) }
      | some b => decodeLoop (dst.set i (a * 16 + b)) (i + 1) rest

/-- The function `hex.Decode(dst, src)`. -/
def hexDecode (dst src : List Nat) : DecodeResult :=
  decodeLoop dst 0 src

/-- The bytes a call `hex.Decode(dst, src)` stores when it succeeds: one byte for
every two characters of `src`. -/
def hexBytes : List Nat → List Nat
  | p :: q :: rest =>
    ((fromHexChar p).getD 0 * 16 + (fromHexChar q).getD 0) :: hexBytes rest
  | _ => []

/-- The constant `hextable` of `encoding/hex`, indexed by a nibble. -/
def hextable (v : Nat) : Nat :=
  if v < 10 then 48 + v else 97 + (v - 10)

/-- The function `hex.EncodeToString`: two lowercase hex digits per byte, the
high nibble first. -/
def hexEncodeToString : List Nat → GoString
  | [] => []
  | v :: rest => hextable (v / 16 % 16) :: hextable (v % 16) :: hexEncodeToString rest

/-- The lowercase form of one byte of ASCII text. -/
def lowerByte (c : Nat) : Nat :=
  if 65 ≤ c ∧ c ≤ 90 then c + 32 else c

/-- The lowercase form of a text, byte by byte. -/
def toLower (s : GoString) : GoString :=
  s.map lowerByte

/-- A byte that is a hexadecimal digit, in either case. -/
def IsHexDigit (c : Nat) : Prop :=
  (48 ≤ c ∧ c ≤ 57) ∨ (97 ≤ c ∧ c ≤ 102) ∨ (65 ≤ c ∧ c ≤ 70)

instance (c : Nat) : Decidable (IsHexDigit c) := by
  unfold IsHexDigit
  infer_instance

/-! ## errors.Is (Go standard library) -/

/-- The loop `is` of package `errors`: `err` is compared with `target`, then
unwrapped, until the chain ends. -/
def isChain (target : GoError) : GoError → Bool
  | GoError.wrap text inner =>
    if GoError.wrap text inner = target then true else isChain target inner
  | err => decide (err = target)

/-- The function `errors.Is(err, target)`; `none` is the nil error. -/
def errorsIs (err target : Option GoError) : Bool :=
  match err, target with
  | none, none => true
  | none, some _ => false
  | some _, none => false
  | some e, some t => isChain t e

/-- An error that is `target` or wraps it, at any depth. -/
inductive IsOrWraps (target : GoError) : GoError → Prop where
  | here : IsOrWraps target target
  | inside (text : String) (inner : GoError) :
      IsOrWraps target inner → IsOrWraps target (GoError.wrap text inner)

/-! ## The callees outside the program -/

/-- A namespace of the node library (`share.Namespace`): its bytes. -/
abbrev Namespace := List Nat

/-- What the world outside the program answers to the calls of `serve`.
`none` is the nil error. -/
structure Host where
  /-- The error of `rpc.NewClient(ctx, rpcAddress, rpcToken)`. -/
  rpcNewClient : GoString → GoString → Option GoError
  /-- The result of `share.NewBlobNamespaceV0(nsBytes)`. -/
  shareNewBlobNamespaceV0 : List Nat → Except GoError Namespace
  /-- The error of `net.Listen(network, address)`. -/
  netListen : GoString → GoString → Option GoError
  /-- The value returned by `srv.Serve(lis)`. -/
  srvServe : Option GoError
  /-- The error of the deferred `lis.Close()`. -/
  lisClose : Option GoError

/-- The five network families the usage text of the flag `grpc.network` names
(line 76). -/
def listenNetworks : List GoString :=
  [goString "tcp", goString "tcp4", goString "tcp6", goString "unix", goString "unixpacket"]

/-! ## serve -/

/-- The calls made during a run of `serve`, in the order they are made.
`listen` carries the error `net.Listen` returned; `serveLoop` is the entry into
`srv.Serve(lis)` and `loopClose` the close of the listener by `srv.Serve` before
it returns; `close` is the `lis.Close()` of the deferred function of `serve`. -/
inductive Event where
  | newClient (rpcAddress rpcToken : GoString)
  | newBlobNamespaceV0 (nsBytes : List Nat)
  | newCelestiaDA (ns : Namespace)
  | newServer
  | listen (network address : GoString) (err : Option GoError)
  | infoln (msg : String)
  | serveLoop
  | loopClose
  | close
  | errorln (msg : String) (err : GoError)
  | fatalln (msg : String) (err : Option GoError)
  deriving DecidableEq, Repr

/-- How a run of `serve` ends: the function returns, or `log.Fatalln` ends the
process through `os.Exit(1)`. -/
inductive Outcome where
  | returned
  | exited
  deriving DecidableEq, Repr

/-- A run of `serve`: the calls made and the way it ended. -/
structure Run where
  trace : List Event
  outcome : Outcome
  deriving DecidableEq, Repr

/-- The call `log.Fatalln(msg, err)` after the calls `trace`: the message is
written and the process exits; no deferred function runs. -/
def fatal (trace : List Event) (msg : String) (err : Option GoError) : Run :=
  { trace := trace ++ [Event.fatalln msg err], outcome := Outcome.exited }

/-- The deferred function of `serve` (lines 56-60): the listener is closed, and
an error of the close is written with `log.Errorln`. -/
def deferredClose (host : Host) : List Event :=
  match host.lisClose with
  | some err => [Event.close, Event.errorln "failed to close network listener:" err]
  | none => [Event.close]

/-- The call `srv.Serve(lis)` of the gRPC library: the loop is entered, and
"lis will be closed when this method returns" (documentation of
`grpc.Server.Serve`); the value returned is the host's. -/
def srvServe (host : Host) : List Event × Option GoError :=
  ([Event.serveLoop, Event.loopClose], host.srvServe)

/-- The function `serve` (lines 33-66). -/
def serve (host : Host) (rpcAddress rpcToken listenAddress listenNetwork nsString : GoString) :
    Run :=
  let t1 := [Event.newClient rpcAddress rpcToken]
  match host.rpcNewClient rpcAddress rpcToken with
  | some err => fatal t1 "failed to create celestia-node RPC client:" (some err)
  | none =>
    let decoded := hexDecode (List.replicate (nsString.length / 2) 0) nsString
    match decoded.err with
    | some err => fatal t1 "invalid hex value of a namespace:" (some err)
    | none =>
      let nsBytes := decoded.dst
      let t2 := t1 ++ [Event.newBlobNamespaceV0 nsBytes]
      match host.shareNewBlobNamespaceV0 nsBytes with
      | Except.error err => fatal t2 "invalid namespace:" (some err)
      | Except.ok ns =>
        let bindErr := host.netListen listenNetwork listenAddress
        let t3 := t2 ++ [Event.newCelestiaDA ns, Event.newServer,
          Event.listen listenNetwork listenAddress bindErr]
        match bindErr with
        | some err => fatal t3 "failed to create network listener:" (some err)
        | none =>
          let loop := srvServe host
          let t4 := t3 ++ [Event.infoln "serving celestia-da over gRPC on:"] ++ loop.1
          let err := loop.2
          if !errorsIs err (some ErrServerStopped) then
            fatal t4 "gRPC server stopped with error:" err
          else
            { trace := t4 ++ deferredClose host, outcome := Outcome.returned }

/-- The run took a `log.Fatalln` with the message `msg`. -/
def Run.fatalWith (r : Run) (msg : String) : Prop :=
  r.outcome = Outcome.exited ∧ ∃ err, r.trace.getLast? = some (Event.fatalln msg err)

/-- The state of the listener of a run. -/
inductive Listener where
  | absent
  | opened
  | closed
  deriving DecidableEq, Repr

/-- The listener, and the number of times it has been closed, after one more
call: a `net.Listen` that returns no error opens it; a close, by the serve loop
or by the deferred function, closes it when it is open and finds it closed
already otherwise. -/
def listenerStep (st : Listener × Nat) : Event → Listener × Nat
  | Event.listen _ _ none => (Listener.opened, st.2)
  | Event.loopClose =>
    match st.1 with
    | Listener.opened => (Listener.closed, st.2 + 1)
    | _ => st
  | Event.close =>
    match st.1 with
    | Listener.opened => (Listener.closed, st.2 + 1)
    | _ => st
  | _ => st

/-- The number of times the listener was closed during the run. -/
def Run.closes (r : Run) : Nat :=
  (r.trace.foldl listenerStep (Listener.absent, 0)).2

/-- The number of calls that close the listener during the run, those that find
it closed already included. -/
def Run.closeCalls (r : Run) : Nat :=
  r.trace.count Event.loopClose + r.trace.count Event.close

/-- The run entered the serve loop `srv.Serve`. -/
def Run.served (r : Run) : Prop :=
  Event.serveLoop ∈ r.trace

/-- Modelled from the spec: the fixed payload length of a version-0 namespace.
The constant belongs to the node library (package `share`), which is not among
the files of this repository; the spec's example puts it at 28 bytes. -/
def versionZeroLen : Nat := 28

/-- Modelled from the spec: `share.NewBlobNamespaceV0`, a function of the node
library that is not among the files of this repository. The spec (4.1): the
decoded bytes are "validated against the namespace structural rules for version
0 (exact expected byte length, reserved-field constraints as defined by the
backing service's namespace format); violation fails with InvalidNamespace";
the Namespace holds the "raw byte sequence". The spec does not give the
reserved-field constraints: they are the parameter `reservedOk`. -/
def NewBlobNamespaceV0 (reservedOk : List Nat → Bool) (id : List Nat) :
    Except GoError Namespace :=
  if id.length ≠ versionZeroLen then
    Except.error (GoError.sentinel "invalid namespace length")
  else if reservedOk id = false then
    Except.error (GoError.sentinel "invalid namespace reserved field")
  else
    Except.ok id

/-- A host whose namespace constructor is the one the spec describes. -/
def Host.withSpecNamespace (host : Host) (reservedOk : List Nat → Bool) : Host :=
  { host with shareNewBlobNamespaceV0 := NewBlobNamespaceV0 reservedOk }

/-! ## Flags and the pre-run hook -/

/-- The constant `grpcAddrFlag`. -/
def grpcAddrFlag : String := "grpc.address"

/-- The constant `grpcTokenFlag`. -/
def grpcTokenFlag : String := "grpc.token"

/-- The constant `grpcNamespaceFlag`. -/
def grpcNamespaceFlag : String := "grpc.namespace"

/-- The constant `grpcListenFlag`. -/
def grpcListenFlag : String := "grpc.listen"

/-- The constant `grpcNetworkFlag`. -/
def grpcNetworkFlag : String := "grpc.network"

/-- The names of the five flags of the gRPC service. -/
def grpcFlagNames : List String :=
  [grpcAddrFlag, grpcTokenFlag, grpcNamespaceFlag, grpcListenFlag, grpcNetworkFlag]

/-- A flag of package `pflag`: its name, the type of its value, the default,
the current value, whether the command line set it, and the mark left by
`MarkFlagRequired`. -/
structure Flag where
  name : String
  typ : String
  defValue : GoString
  value : GoString
  changed : Bool
  required : Bool
  deriving DecidableEq, Repr

/-- A `pflag.FlagSet`: its flags in the order they were added. -/
abbrev FlagSet := List Flag

/-- The method `FlagSet.Lookup`. -/
def FlagSet.lookup (f : FlagSet) (name : String) : Option Flag :=
  f.find? (fun flag => decide (flag.name = name))

/-- The method `FlagSet.String(name, value, usage)`: a new string flag whose
default and current value are `value`. -/
def FlagSet.addString (f : FlagSet) (name : String) (value : GoString) : FlagSet :=
  f ++ [{ name := name, typ := "string", defValue := value, value := value,
          changed := false, required := false }]

/-- The method `FlagSet.AddFlagSet`: each flag of `newSet` is added unless a
flag of that name is already there. -/
def FlagSet.addFlagSet (f newSet : FlagSet) : FlagSet :=
  newSet.foldl (fun acc flag => if (FlagSet.lookup acc flag.name).isNone then acc ++ [flag]
    else acc) f

/-- The method `FlagSet.GetString`, its error dropped as the hook drops it: the
value of a string flag, and the empty string for a flag that is not defined or
has another type. -/
def FlagSet.getString (f : FlagSet) (name : String) : GoString :=
  match FlagSet.lookup f name with
  | none => []
  | some flag => if flag.typ = "string" then flag.value else []

/-- The mark `MarkFlagRequired` leaves on the flag called `name`. -/
def Flag.mark (name : String) (flag : Flag) : Flag :=
  if flag.name = name then { flag with required := true } else flag

/-- The effect of the command line on one flag: a flag it sets takes the value
given there (`assign name`), any other keeps its default. -/
def Flag.assigned (assign : String → Option GoString) (flag : Flag) : Flag :=
  match assign flag.name with
  | some v => { flag with value := v, changed := true }
  | none => flag

/-- The function `MarkFlagRequired`: the flag is marked; `none` is the error for
a flag that does not exist. -/
def FlagSet.markRequired (f : FlagSet) (name : String) : Option FlagSet :=
  match FlagSet.lookup f name with
  | none => none
  | some _ => some (f.map (Flag.mark name))

/-- Parsing of the command line, flag by flag. -/
def FlagSet.parse (f : FlagSet) (assign : String → Option GoString) : FlagSet :=
  f.map (Flag.assigned assign)

/-- The arguments of one call `go serve(ctx, ...)`, by parameter name. -/
structure ServeCall where
  rpcAddress : GoString
  rpcToken : GoString
  listenAddress : GoString
  listenNetwork : GoString
  nsString : GoString
  deriving DecidableEq, Repr

/-- The closure `preRun` (lines 91-101), applied to the flags of the command:
the goroutines it starts. -/
def preRun (flags : FlagSet) : List ServeCall :=
  let rpcAddress := FlagSet.getString flags grpcAddrFlag
  let rpcToken := FlagSet.getString flags grpcTokenFlag
  let nsString := FlagSet.getString flags grpcNamespaceFlag
  let listenAddress := FlagSet.getString flags grpcListenFlag
  let listenNetwork := FlagSet.getString flags grpcNetworkFlag
  [{ rpcAddress := rpcAddress, rpcToken := rpcToken, listenAddress := listenAddress,
     listenNetwork := listenNetwork, nsString := nsString }]

/-- A `cobra.Command`, as far as the program touches it: its flags and its
`PreRun` hook. -/
structure Command where
  flags : FlagSet
  preRun : Option (FlagSet → List ServeCall)

/-- The flag set `grpcFlags` (lines 71-76). -/
def grpcFlags : FlagSet :=
  let f0 : FlagSet := []
  let f1 := FlagSet.addString f0 grpcAddrFlag (goString "http://127.0.0.1:26658")
  let f2 := FlagSet.addString f1 grpcTokenFlag (goString "")
  let f3 := FlagSet.addString f2 grpcNamespaceFlag (goString "")
  let f4 := FlagSet.addString f3 grpcListenFlag (goString "")
  FlagSet.addString f4 grpcNetworkFlag (goString "tcp")

/-- The loop over `requiredFlags` (lines 84-89); `none` is the `log.Fatal`. -/
def markAllRequired (f : FlagSet) : List String → Option FlagSet
  | [] => some f
  | required :: rest =>
    match FlagSet.markRequired f required with
    | none => none
    | some g => markAllRequired g rest

/-- The function returned by `WithDataAvailabilityService(flags)` (lines 70-104),
applied to the command `c`; `none` is the `log.Fatal` of line 87. -/
def WithDataAvailabilityService (flags : List FlagSet) (c : Command) : Option Command :=
  let fset := flags ++ [grpcFlags]
  let cflags := fset.foldl FlagSet.addFlagSet c.flags
  match markAllRequired cflags [grpcTokenFlag, grpcNamespaceFlag] with
  | none => none
  | some marked => some { flags := marked, preRun := some preRun }

/-- The command framework runs the hook of a command after it has parsed the
command line into the command's flags. -/
def runPreRun (c : Command) (assign : String → Option GoString) : List ServeCall :=
  match c.preRun with
  | none => []
  | some hook => hook (FlagSet.parse c.flags assign)

/-- The runs of the goroutines started by the hook. -/
def launch (host : Host) (calls : List ServeCall) : List Run :=
  calls.map (fun call =>
    serve host call.rpcAddress call.rpcToken call.listenAddress call.listenNetwork call.nsString)

/-- The value a flag contributes: the one from the command line, or its default. -/
def flagValue (assign : String → Option GoString) (name : String) (dflt : GoString) : GoString :=
  (assign name).getD dflt

/-! ## Orders and sample hosts used in the statements -/

/-- The place of a call in the order of the steps of `serve`. -/
def stepRank : Event → Nat
  | Event.newClient _ _ => 0
  | Event.newBlobNamespaceV0 _ => 1
  | Event.newCelestiaDA _ => 2
  | Event.newServer => 3
  | Event.listen _ _ _ => 4
  | Event.infoln _ => 5
  | Event.serveLoop => 6
  | Event.loopClose => 7
  | Event.close => 8
  | Event.errorln _ _ => 9
  | Event.fatalln _ _ => 10

/-- A host on which every call before the serve loop succeeds, the namespace
constructor hands the bytes on, the serve loop returns `served` and the close of
the listener returns `closed`. -/
def plainHost (served closed : Option GoError) : Host :=
  { rpcNewClient := fun _ _ => none
    shareNewBlobNamespaceV0 := fun id => Except.ok id
    netListen := fun _ _ => none
    srvServe := served
    lisClose := closed }

/-- A host whose backing service refuses the connection. -/
def refusingHost : Host :=
  { plainHost none none with
    rpcNewClient := fun _ _ => some (GoError.sentinel "connection refused") }

/-- A host like `plainHost none none`, except that `net.Listen` returns an error
for every network family outside `listenNetworks`. -/
def pickyHost : Host :=
  { plainHost none none with
    netListen := fun network _ =>
      if network ∈ listenNetworks then none
      else some (GoError.wrap "listen" (GoError.unknownNetwork network)) }

/-- A command before any option is applied to it: no flags, no hook. -/
def bareCommand : Command :=
  { flags := [], preRun := none }

/-- The calls of `serve` up to and including the entry into the serve loop, when
every step before it succeeds. -/
def servingTrace (rpcAddress rpcToken listenAddress listenNetwork : GoString)
    (nsBytes : List Nat) (ns : Namespace) : List Event :=
  [Event.newClient rpcAddress rpcToken, Event.newBlobNamespaceV0 nsBytes,
   Event.newCelestiaDA ns, Event.newServer, Event.listen listenNetwork listenAddress none,
   Event.infoln "serving celestia-da over gRPC on:", Event.serveLoop, Event.loopClose]

/-! ## encoding/hex -/

theorem pairs_induction {P : List Nat → Prop} (h0 : P []) (h1 : ∀ p, P [p])
    (h2 : ∀ p q rest, P rest → P (p :: q :: rest)) : ∀ src, P src
  | [] => h0
  | [p] => h1 p
  | p :: q :: rest => h2 p q rest (pairs_induction h0 h1 h2 rest)

theorem fromHexChar_none_iff (c : Nat) : fromHexChar c = none ↔ ¬ IsHexDigit c := by
  unfold fromHexChar IsHexDigit
  split_ifs <;> simp <;> omega

theorem fromHexChar_some (c : Nat) (h : IsHexDigit c) :
    ∃ v, fromHexChar c = some v ∧ v < 16 ∧ hextable v = lowerByte c := by
  unfold IsHexDigit at h
  unfold fromHexChar hextable lowerByte
  rcases h with h | h | h
  · refine ⟨c - 48, by simp [h], by omega, ?_⟩
    split_ifs <;> omega
  · have h48 : ¬ (48 ≤ c ∧ c ≤ 57) := by omega
    refine ⟨c - 97 + 10, by simp [h48, h], by omega, ?_⟩
    split_ifs <;> omega
  · have h48 : ¬ (48 ≤ c ∧ c ≤ 57) := by omega
    have h97 : ¬ (97 ≤ c ∧ c ≤ 102) := by omega
    refine ⟨c - 65 + 10, by simp [h48, h97, h], by omega, ?_⟩
    split_ifs <;> omega

theorem take_set_succ (dst : List Nat) : ∀ (i v : Nat), i < dst.length →
    (dst.set i v).take (i + 1) = dst.take i ++ [v] := by
  induction dst with
  | nil => intro i v h; simp at h
  | cons x xs ih =>
    intro i v h
    cases i with
    | zero => simp
    | succ j =>
      simp only [List.length_cons] at h
      simp [ih j v (by omega)]

theorem drop_set_of_lt (dst : List Nat) : ∀ (i k v : Nat), i < k →
    (dst.set i v).drop k = dst.drop k := by
  induction dst with
  | nil => intro i k v _; simp
  | cons x xs ih =>
    intro i k v h
    cases k with
    | zero => omega
    | succ m =>
      cases i with
      | zero => simp
      | succ j => simp [ih j m v (by omega)]

/-- The call `hex.Decode` succeeds exactly on the texts of even length made of
hex digits only. -/
theorem decodeLoop_ok_iff (src : List Nat) :
    ∀ dst i, (decodeLoop dst i src).err = none ↔
      (src.length % 2 = 0 ∧ ∀ c ∈ src, IsHexDigit c) := by
  induction src using pairs_induction with
  | h0 => intro dst i; simp [decodeLoop]
  | h1 p =>
    intro dst i
    unfold decodeLoop
    cases hp : fromHexChar p <;> simp
  | h2 p q rest ih =>
    intro dst i
    unfold decodeLoop
    cases hp : fromHexChar p with
    | none =>
      have := (fromHexChar_none_iff p).mp hp
      simp [this]
    | some a =>
      have hpd : IsHexDigit p := by
        by_contra hc
        rw [(fromHexChar_none_iff p).mpr hc] at hp
        exact Option.noConfusion hp
      cases hq : fromHexChar q with
      | none =>
        have := (fromHexChar_none_iff q).mp hq
        simp [this]
      | some b =>
        have hqd : IsHexDigit q := by
          by_contra hc
          rw [(fromHexChar_none_iff q).mpr hc] at hq
          exact Option.noConfusion hq
        simp only [ih, List.length_cons, List.mem_cons, forall_eq_or_imp, hpd, hqd, true_and]
        constructor
        · rintro ⟨h1, h2⟩; exact ⟨by omega, h2⟩
        · rintro ⟨h1, h2⟩; exact ⟨by omega, h2⟩

/-- The buffer keeps its length. -/
theorem decodeLoop_dst_length (src : List Nat) :
    ∀ dst i, (decodeLoop dst i src).dst.length = dst.length := by
  induction src using pairs_induction with
  | h0 => intro dst i; simp [decodeLoop]
  | h1 p =>
    intro dst i
    unfold decodeLoop
    cases hp : fromHexChar p <;> simp
  | h2 p q rest ih =>
    intro dst i
    unfold decodeLoop
    cases hp : fromHexChar p with
    | none => simp
    | some a =>
      cases hq : fromHexChar q with
      | none => simp
      | some b => simp [ih]

/-- On success the count of bytes written is half the length of the text. -/
theorem decodeLoop_n (src : List Nat) :
    ∀ dst i, (decodeLoop dst i src).err = none →
      (decodeLoop dst i src).n = i + src.length / 2 := by
  induction src using pairs_induction with
  | h0 => intro dst i _; simp [decodeLoop]
  | h1 p =>
    intro dst i h
    unfold decodeLoop at h
    cases hp : fromHexChar p <;> simp [hp] at h
  | h2 p q rest ih =>
    intro dst i h
    unfold decodeLoop at h ⊢
    cases hp : fromHexChar p with
    | none => simp [hp] at h
    | some a =>
      cases hq : fromHexChar q with
      | none => simp [hp, hq] at h
      | some b =>
        simp only [hp, hq] at h ⊢
        rw [ih _ _ h]
        simp only [List.length_cons]
        omega

/-- On success the bytes written are `hexBytes src`, stored from index `i` on. -/
theorem decodeLoop_dst (src : List Nat) :
    ∀ dst i, (decodeLoop dst i src).err = none → i + src.length / 2 ≤ dst.length →
      (decodeLoop dst i src).dst =
        dst.take i ++ hexBytes src ++ dst.drop (i + src.length / 2) := by
  induction src using pairs_induction with
  | h0 => intro dst i _ _; simp [decodeLoop, hexBytes]
  | h1 p =>
    intro dst i h
    unfold decodeLoop at h
    cases hp : fromHexChar p <;> simp [hp] at h
  | h2 p q rest ih =>
    intro dst i h hlen
    unfold decodeLoop at h ⊢
    cases hp : fromHexChar p with
    | none => simp [hp] at h
    | some a =>
      cases hq : fromHexChar q with
      | none => simp [hp, hq] at h
      | some b =>
        simp only [hp, hq] at h ⊢
        simp only [List.length_cons] at hlen
        have hlt : i < dst.length := by omega
        rw [ih _ _ h (by simp only [List.length_set]; omega)]
        simp only [hexBytes, hp, hq, Option.getD_some, List.length_cons]
        have e1 := take_set_succ dst i (a * 16 + b) hlt
        have e2 : (dst.set i (a * 16 + b)).drop (i + 1 + rest.length / 2) =
            dst.drop (i + (rest.length + 1 + 1) / 2) := by
          rw [drop_set_of_lt dst i (i + 1 + rest.length / 2) (a * 16 + b) (by omega)]
          congr 1
          omega
        rw [e1, e2]
        simp

/-- Encoding the decoded bytes gives back the text in lowercase. -/
theorem hexEncode_hexBytes (src : List Nat) :
    src.length % 2 = 0 → (∀ c ∈ src, IsHexDigit c) →
      hexEncodeToString (hexBytes src) = toLower src := by
  induction src using pairs_induction with
  | h0 => intro _ _; simp [hexBytes, hexEncodeToString, toLower]
  | h1 p => intro h; simp at h
  | h2 p q rest ih =>
    intro hlen hall
    simp only [List.mem_cons, forall_eq_or_imp] at hall
    obtain ⟨hp, hq, hrest⟩ := hall
    obtain ⟨a, ha, ha16, hta⟩ := fromHexChar_some p hp
    obtain ⟨b, hb, hb16, htb⟩ := fromHexChar_some q hq
    simp only [List.length_cons] at hlen
    have ih2 := ih (by omega) hrest
    simp only [hexBytes, ha, hb, Option.getD_some, hexEncodeToString, toLower, List.map_cons]
    have d1 : (a * 16 + b) / 16 % 16 = a := by omega
    have d2 : (a * 16 + b) % 16 = b := by omega
    rw [d1, d2, hta, htb, ih2]
    simp [toLower]

theorem hexBytes_length (src : List Nat) : (hexBytes src).length = src.length / 2 := by
  induction src using pairs_induction with
  | h0 => simp [hexBytes]
  | h1 p => simp [hexBytes]
  | h2 p q rest ih =>
    simp only [hexBytes, List.length_cons, ih]
    omega

/-- With the buffer `serve` allocates, a successful `hex.Decode` leaves exactly
the decoded bytes in it. -/
theorem hexDecode_buffer (s : List Nat)
    (h : (hexDecode (List.replicate (s.length / 2) 0) s).err = none) :
    (hexDecode (List.replicate (s.length / 2) 0) s).dst = hexBytes s := by
  unfold hexDecode at h ⊢
  rw [decodeLoop_dst s _ 0 h (by simp)]
  simp

/-- For every even-length text of hex digits, `hex.Decode` into the buffer of
`serve` succeeds, and `hex.EncodeToString` of the decoded bytes is the text in
lowercase. -/
theorem hexDecode_roundtrip (s : List Nat) (heven : s.length % 2 = 0)
    (hhex : ∀ c ∈ s, IsHexDigit c) :
    (hexDecode (List.replicate (s.length / 2) 0) s).err = none ∧
    hexEncodeToString (hexDecode (List.replicate (s.length / 2) 0) s).dst = toLower s := by
  have hd : (hexDecode (List.replicate (s.length / 2) 0) s).err = none :=
    (decodeLoop_ok_iff s _ 0).mpr ⟨heven, hhex⟩
  refine ⟨hd, ?_⟩
  rw [hexDecode_buffer s hd]
  exact hexEncode_hexBytes s heven hhex

/-! ## errors.Is -/

theorem isChain_iff (target err : GoError) :
    isChain target err = true ↔ IsOrWraps target err := by
  induction err with
  | wrap text inner ih =>
    unfold isChain
    constructor
    · intro h
      by_cases hc : GoError.wrap text inner = target
      · rw [hc]; exact IsOrWraps.here
      · simp only [hc, if_false] at h
        exact IsOrWraps.inside text inner (ih.mp h)
    · intro h
      by_cases hc : GoError.wrap text inner = target
      · simp [hc]
      · simp only [hc, if_false]
        cases h with
        | here => exact absurd rfl hc
        | inside _ _ h2 => exact ih.mpr h2
  | sentinel name =>
    unfold isChain
    constructor
    · intro h
      rw [of_decide_eq_true h]; exact IsOrWraps.here
    · intro h
      cases h with
      | here => simp
  | invalidByte b =>
    unfold isChain
    constructor
    · intro h
      rw [of_decide_eq_true h]; exact IsOrWraps.here
    · intro h
      cases h with
      | here => simp
  | unknownNetwork n =>
    unfold isChain
    constructor
    · intro h
      rw [of_decide_eq_true h]; exact IsOrWraps.here
    · intro h
      cases h with
      | here => simp

/-! ## The shape of a run of serve -/

theorem serve_trace_sorted (host : Host) (a t l n s : GoString) :
    List.Pairwise (fun x y => stepRank x < stepRank y) (serve host a t l n s).trace := by
  unfold serve
  simp only []
  split
  · simp [fatal, stepRank]
  · split
    · simp [fatal, stepRank]
    · split
      · simp [fatal, stepRank]
      · split
        · simp [fatal, stepRank]
        · split
          · simp [fatal, stepRank, srvServe]
          · simp only [deferredClose, srvServe]
            split <;> simp [stepRank]

/-- The six ways a run of `serve` can go, each with the results of the calls
that lead to it. -/
theorem serve_cases (host : Host) (a t l n s : GoString) :
    (∃ e, host.rpcNewClient a t = some e ∧
      serve host a t l n s =
        fatal [Event.newClient a t] "failed to create celestia-node RPC client:" (some e)) ∨
    (host.rpcNewClient a t = none ∧
      ∃ e, (hexDecode (List.replicate (s.length / 2) 0) s).err = some e ∧
      serve host a t l n s =
        fatal [Event.newClient a t] "invalid hex value of a namespace:" (some e)) ∨
    (host.rpcNewClient a t = none ∧
      (hexDecode (List.replicate (s.length / 2) 0) s).err = none ∧
      ∃ e, host.shareNewBlobNamespaceV0
        (hexDecode (List.replicate (s.length / 2) 0) s).dst = Except.error e ∧
      serve host a t l n s =
        fatal [Event.newClient a t,
          Event.newBlobNamespaceV0 (hexDecode (List.replicate (s.length / 2) 0) s).dst]
          "invalid namespace:" (some e)) ∨
    (host.rpcNewClient a t = none ∧
      (hexDecode (List.replicate (s.length / 2) 0) s).err = none ∧
      ∃ ns e, host.shareNewBlobNamespaceV0
        (hexDecode (List.replicate (s.length / 2) 0) s).dst = Except.ok ns ∧
      host.netListen n l = some e ∧
      serve host a t l n s =
        fatal [Event.newClient a t,
          Event.newBlobNamespaceV0 (hexDecode (List.replicate (s.length / 2) 0) s).dst,
          Event.newCelestiaDA ns, Event.newServer, Event.listen n l (some e)]
          "failed to create network listener:" (some e)) ∨
    (host.rpcNewClient a t = none ∧
      (hexDecode (List.replicate (s.length / 2) 0) s).err = none ∧
      ∃ ns, host.shareNewBlobNamespaceV0
        (hexDecode (List.replicate (s.length / 2) 0) s).dst = Except.ok ns ∧
      host.netListen n l = none ∧
      errorsIs host.srvServe (some ErrServerStopped) = false ∧
      serve host a t l n s =
        fatal (servingTrace a t l n (hexDecode (List.replicate (s.length / 2) 0) s).dst ns)
          "gRPC server stopped with error:" host.srvServe) ∨
    (host.rpcNewClient a t = none ∧
      (hexDecode (List.replicate (s.length / 2) 0) s).err = none ∧
      ∃ ns, host.shareNewBlobNamespaceV0
        (hexDecode (List.replicate (s.length / 2) 0) s).dst = Except.ok ns ∧
      host.netListen n l = none ∧
      errorsIs host.srvServe (some ErrServerStopped) = true ∧
      serve host a t l n s =
        { trace := servingTrace a t l n (hexDecode (List.replicate (s.length / 2) 0) s).dst ns
            ++ deferredClose host,
          outcome := Outcome.returned }) := by
  cases h1 : host.rpcNewClient a t with
  | some e =>
    left
    exact ⟨e, rfl, by unfold serve; simp [h1]⟩
  | none =>
    right
    cases h2 : (hexDecode (List.replicate (s.length / 2) 0) s).err with
    | some e =>
      left
      exact ⟨rfl, e, rfl, by unfold serve; simp [h1, h2]⟩
    | none =>
      right
      cases h3 : host.shareNewBlobNamespaceV0
          (hexDecode (List.replicate (s.length / 2) 0) s).dst with
      | error e =>
        left
        exact ⟨rfl, rfl, e, rfl, by unfold serve; simp [h1, h2, h3]⟩
      | ok ns =>
        right
        cases h4 : host.netListen n l with
        | some e =>
          left
          exact ⟨rfl, rfl, ns, e, rfl, rfl, by unfold serve; simp [h1, h2, h3, h4]⟩
        | none =>
          right
          cases h5 : errorsIs host.srvServe (some ErrServerStopped) with
          | false =>
            left
            exact ⟨rfl, rfl, ns, rfl, rfl, rfl, by
              unfold serve; simp [h1, h2, h3, h4, h5, servingTrace, srvServe]⟩
          | true =>
            right
            exact ⟨rfl, rfl, ns, rfl, rfl, rfl, by
              unfold serve; simp [h1, h2, h3, h4, h5, servingTrace, srvServe]⟩

/-- A run that reaches the serve loop: every step before it succeeded, and the
run is decided by what the loop returned. -/
theorem served_inv (host : Host) (a t l n s : GoString)
    (h : (serve host a t l n s).served) :
    ∃ ns, host.rpcNewClient a t = none ∧ host.netListen n l = none ∧
      ((errorsIs host.srvServe (some ErrServerStopped) = false ∧
        serve host a t l n s =
          fatal (servingTrace a t l n (hexDecode (List.replicate (s.length / 2) 0) s).dst ns)
            "gRPC server stopped with error:" host.srvServe) ∨
       (errorsIs host.srvServe (some ErrServerStopped) = true ∧
        serve host a t l n s =
          { trace := servingTrace a t l n (hexDecode (List.replicate (s.length / 2) 0) s).dst ns
              ++ deferredClose host,
            outcome := Outcome.returned })) := by
  rcases serve_cases host a t l n s with ⟨e, _, hs⟩ | ⟨_, e, _, hs⟩ | ⟨_, _, e, _, hs⟩ |
    ⟨_, _, ns, e, _, _, hs⟩ | ⟨h1, _, ns, _, h4, h5, hs⟩ | ⟨h1, _, ns, _, h4, h5, hs⟩
  · exact absurd h (by simp [Run.served, hs, fatal])
  · exact absurd h (by simp [Run.served, hs, fatal])
  · exact absurd h (by simp [Run.served, hs, fatal])
  · exact absurd h (by simp [Run.served, hs, fatal])
  · exact ⟨ns, h1, h4, Or.inl ⟨h5, hs⟩⟩
  · exact ⟨ns, h1, h4, Or.inr ⟨h5, hs⟩⟩

/-- C1, as stated, fails: every step up to the serve loop succeeds and
`srv.Serve` returns nil; `errors.Is(nil, grpc.ErrServerStopped)` is false, so
`serve` ends in `log.Fatalln("gRPC server stopped with error:", nil)` and the
process exits. -/
theorem serve_nil_from_loop_is_fatal :
    errorsIs none (some ErrServerStopped) = false ∧
    Event.serveLoop ∈
      (serve (plainHost none none) (goString "http://127.0.0.1:26658") (goString "token")
        (goString "127.0.0.1:4200") (goString "tcp") (goString "00ff")).trace ∧
    (serve (plainHost none none) (goString "http://127.0.0.1:26658") (goString "token")
      (goString "127.0.0.1:4200") (goString "tcp") (goString "00ff")).outcome
      = Outcome.exited ∧
    (serve (plainHost none none) (goString "http://127.0.0.1:26658") (goString "token")
      (goString "127.0.0.1:4200") (goString "tcp") (goString "00ff")).trace.getLast?
      = some (Event.fatalln "gRPC server stopped with error:" none) := by
  decide

/-- C1, amended: once the serve loop has been entered, a nil result of
`srv.Serve` makes `serve` end in `log.Fatalln("gRPC server stopped with error:",
nil)` and the process exit; `serve` returns normally exactly when the loop
returns an error that is `grpc.ErrServerStopped` or wraps it. -/
theorem serve_clean_shutdown_signal (host : Host) (a t l n s : GoString)
    (hs : (serve host a t l n s).served) :
    (host.srvServe = none →
      (serve host a t l n s).fatalWith "gRPC server stopped with error:") ∧
    ((serve host a t l n s).outcome = Outcome.returned ↔
      ∃ e, host.srvServe = some e ∧ IsOrWraps ErrServerStopped e) := by
  obtain ⟨ns, _, _, hcase⟩ := served_inv host a t l n s hs
  rcases hcase with ⟨h5, hrun⟩ | ⟨h5, hrun⟩
  · refine ⟨fun _ => ?_, ⟨fun hr => ?_, fun hw => ?_⟩⟩
    · rw [hrun]
      exact ⟨rfl, host.srvServe, by simp [fatal]⟩
    · rw [hrun] at hr
      exact Outcome.noConfusion hr
    · obtain ⟨e, he, hw⟩ := hw
      have := (isChain_iff ErrServerStopped e).mpr hw
      rw [he] at h5
      have h6 : isChain ErrServerStopped e = false := h5
      rw [h6] at this
      exact Bool.noConfusion this
  · refine ⟨fun he => ?_, ⟨fun _ => ?_, fun _ => by rw [hrun]⟩⟩
    · rw [he] at h5
      exact Bool.noConfusion h5
    · cases he : host.srvServe with
      | none =>
        rw [he] at h5
        exact Bool.noConfusion h5
      | some e =>
        rw [he] at h5
        exact ⟨e, rfl, (isChain_iff ErrServerStopped e).mp h5⟩

/-- C1, amended, at a sample run: the loop returns nil. -/
theorem serve_clean_shutdown_signal_witness :
    (serve (plainHost none none) (goString "http://127.0.0.1:26658") (goString "token")
      (goString "127.0.0.1:4200") (goString "tcp") (goString "00ff")).served ∧
    (plainHost none none).srvServe = none ∧
    (serve (plainHost none none) (goString "http://127.0.0.1:26658") (goString "token")
      (goString "127.0.0.1:4200") (goString "tcp") (goString "00ff")).fatalWith
      "gRPC server stopped with error:" :=
  ⟨by unfold Run.served; decide, rfl,
   (serve_clean_shutdown_signal (plainHost none none) (goString "http://127.0.0.1:26658")
      (goString "token") (goString "127.0.0.1:4200") (goString "tcp") (goString "00ff")
      (by unfold Run.served; decide)).1 rfl⟩

/-- C5: when the serve loop returns a non-nil error `e`, `serve` ends in
`log.Fatalln("gRPC server stopped with error:", e)` and the process exits if and
only if `e` neither is `grpc.ErrServerStopped` nor wraps it; when `e` is or
wraps `ErrServerStopped`, `serve` returns normally. -/
theorem serve_loop_error_fatal_iff (host : Host) (a t l n s : GoString) (e : GoError)
    (hs : (serve host a t l n s).served) (he : host.srvServe = some e) :
    ((serve host a t l n s).fatalWith "gRPC server stopped with error:" ↔
      ¬ IsOrWraps ErrServerStopped e) ∧
    (IsOrWraps ErrServerStopped e → (serve host a t l n s).outcome = Outcome.returned) := by
  obtain ⟨ns, _, _, hcase⟩ := served_inv host a t l n s hs
  have hchain : errorsIs host.srvServe (some ErrServerStopped) = isChain ErrServerStopped e := by
    rw [he]; rfl
  rcases hcase with ⟨h5, hrun⟩ | ⟨h5, hrun⟩
  · have hnot : ¬ IsOrWraps ErrServerStopped e := by
      intro hw
      have := (isChain_iff ErrServerStopped e).mpr hw
      rw [← hchain, h5] at this
      exact Bool.noConfusion this
    refine ⟨⟨fun _ => hnot, fun _ => ?_⟩, fun hw => absurd hw hnot⟩
    rw [hrun]
    exact ⟨rfl, host.srvServe, by simp [fatal]⟩
  · have hyes : IsOrWraps ErrServerStopped e :=
      (isChain_iff ErrServerStopped e).mp (by rw [← hchain]; exact h5)
    refine ⟨⟨fun hf => ?_, fun hn => absurd hyes hn⟩, fun _ => by rw [hrun]⟩
    rw [hrun] at hf
    exact absurd hf.1 (by simp)

/-- C5 at a sample run: the loop returns an error that wraps `ErrServerStopped`. -/
theorem serve_loop_error_fatal_iff_witness :
    (serve (plainHost (some (GoError.wrap "serve" ErrServerStopped)) none)
      (goString "http://127.0.0.1:26658") (goString "token") (goString "127.0.0.1:4200")
      (goString "tcp") (goString "00ff")).served ∧
    (plainHost (some (GoError.wrap "serve" ErrServerStopped)) none).srvServe =
      some (GoError.wrap "serve" ErrServerStopped) ∧
    (((serve (plainHost (some (GoError.wrap "serve" ErrServerStopped)) none)
      (goString "http://127.0.0.1:26658") (goString "token") (goString "127.0.0.1:4200")
      (goString "tcp") (goString "00ff")).fatalWith "gRPC server stopped with error:" ↔
      ¬ IsOrWraps ErrServerStopped (GoError.wrap "serve" ErrServerStopped)) ∧
    (IsOrWraps ErrServerStopped (GoError.wrap "serve" ErrServerStopped) →
      (serve (plainHost (some (GoError.wrap "serve" ErrServerStopped)) none)
      (goString "http://127.0.0.1:26658") (goString "token") (goString "127.0.0.1:4200")
      (goString "tcp") (goString "00ff")).outcome = Outcome.returned)) :=
  ⟨by unfold Run.served; decide, rfl,
   serve_loop_error_fatal_iff _ _ _ _ _ _ _ (by unfold Run.served; decide) rfl⟩

/-! ## The bind -/

/-- C6, as stated, fails: with the network family "udp", which is none of the
five, and a backing service that refuses the connection, `serve` ends in the
`log.Fatalln` of the connect error and not in the one of the bind error;
`net.Listen` is never called. -/
theorem serve_unsupported_family_refused_connect :
    goString "udp" ∉ listenNetworks ∧
    (serve refusingHost (goString "http://127.0.0.1:26658") (goString "token")
      (goString "127.0.0.1:4200") (goString "udp") (goString "00ff")) =
      { trace := [Event.newClient (goString "http://127.0.0.1:26658") (goString "token"),
          Event.fatalln "failed to create celestia-node RPC client:"
            (some (GoError.sentinel "connection refused"))],
        outcome := Outcome.exited } ∧
    ¬ (serve refusingHost (goString "http://127.0.0.1:26658") (goString "token")
      (goString "127.0.0.1:4200") (goString "udp") (goString "00ff")).fatalWith
      "failed to create network listener:" := by
  refine ⟨by decide, by decide, ?_⟩
  rintro ⟨_, err, h⟩
  have h2 : (serve refusingHost (goString "http://127.0.0.1:26658") (goString "token")
      (goString "127.0.0.1:4200") (goString "udp") (goString "00ff")).trace.getLast? =
      some (Event.fatalln "failed to create celestia-node RPC client:"
        (some (GoError.sentinel "connection refused"))) := by decide
  rw [h2] at h
  injection h with h
  injection h with h3 _
  exact absurd h3 (by decide)

/-- C6, amended: whenever `net.Listen` returns an error, `serve` ends in a
`log.Fatalln`, never enters the serve loop `srv.Serve` and makes no call that
closes the listener; when the steps before the bind (connect, hex decoding,
namespace validation) have succeeded, the `log.Fatalln` is the one of the bind
error, "failed to create network listener:", right after the call of
`net.Listen`. -/
theorem serve_bind_failure (host : Host) (a t l n s : GoString) (e : GoError)
    (hl : host.netListen n l = some e) :
    ¬ (serve host a t l n s).served ∧
    (serve host a t l n s).closeCalls = 0 ∧
    (serve host a t l n s).closes = 0 ∧
    (serve host a t l n s).outcome = Outcome.exited ∧
    (∀ ns, host.rpcNewClient a t = none →
      (hexDecode (List.replicate (s.length / 2) 0) s).err = none →
      host.shareNewBlobNamespaceV0
        (hexDecode (List.replicate (s.length / 2) 0) s).dst = Except.ok ns →
      (serve host a t l n s).fatalWith "failed to create network listener:" ∧
      (serve host a t l n s).trace =
        [Event.newClient a t,
         Event.newBlobNamespaceV0 (hexDecode (List.replicate (s.length / 2) 0) s).dst,
         Event.newCelestiaDA ns, Event.newServer, Event.listen n l (some e),
         Event.fatalln "failed to create network listener:" (some e)]) := by
  rcases serve_cases host a t l n s with ⟨e1, h1, hs⟩ | ⟨h1, e1, h2, hs⟩ |
    ⟨h1, h2, e1, h3, hs⟩ | ⟨_, _, ns1, e1, h3, h4, hs⟩ | ⟨_, _, ns, _, h4, _, _⟩ |
    ⟨_, _, ns, _, h4, _, _⟩
  · refine ⟨?_, ?_, ?_, ?_, ?_⟩
    · rw [hs]; simp [Run.served, fatal]
    · rw [hs]; simp [Run.closeCalls, fatal]
    · rw [hs]; simp [Run.closes, fatal, listenerStep]
    · rw [hs]; rfl
    · intro ns hc _ _
      rw [hc] at h1
      exact Option.noConfusion h1
  · refine ⟨?_, ?_, ?_, ?_, ?_⟩
    · rw [hs]; simp [Run.served, fatal]
    · rw [hs]; simp [Run.closeCalls, fatal]
    · rw [hs]; simp [Run.closes, fatal, listenerStep]
    · rw [hs]; rfl
    · intro ns _ hd _
      rw [hd] at h2
      exact Option.noConfusion h2
  · refine ⟨?_, ?_, ?_, ?_, ?_⟩
    · rw [hs]; simp [Run.served, fatal]
    · rw [hs]; simp [Run.closeCalls, fatal]
    · rw [hs]; simp [Run.closes, fatal, listenerStep]
    · rw [hs]; rfl
    · intro ns _ _ hv
      rw [hv] at h3
      exact Except.noConfusion h3
  · have he : e1 = e := by
      rw [hl] at h4
      injection h4 with h4
      exact h4.symm
    subst he
    refine ⟨?_, ?_, ?_, ?_, ?_⟩
    · rw [hs]; simp [Run.served, fatal]
    · rw [hs]; simp [Run.closeCalls, fatal]
    · rw [hs]; simp [Run.closes, fatal, listenerStep]
    · rw [hs]; rfl
    · intro ns _ _ hv
      have hns : ns1 = ns := by
        rw [hv] at h3
        injection h3 with h3
        exact h3.symm
      subst hns
      rw [hs]
      exact ⟨⟨rfl, some e1, by simp [fatal]⟩, by simp [fatal]⟩
  · rw [hl] at h4
    exact Option.noConfusion h4
  · rw [hl] at h4
    exact Option.noConfusion h4

/-- C6, amended, at a sample run: the network family "udp" on a host whose
`net.Listen` refuses every family outside the five. -/
theorem serve_bind_failure_witness :
    pickyHost.netListen (goString "udp") (goString "127.0.0.1:4200") =
      some (GoError.wrap "listen" (GoError.unknownNetwork (goString "udp"))) ∧
    pickyHost.rpcNewClient (goString "http://127.0.0.1:26658") (goString "token") = none ∧
    (hexDecode (List.replicate ((goString "00ff").length / 2) 0) (goString "00ff")).err
      = none ∧
    pickyHost.shareNewBlobNamespaceV0
      (hexDecode (List.replicate ((goString "00ff").length / 2) 0) (goString "00ff")).dst
      = Except.ok [0, 255] ∧
    ¬ (serve pickyHost (goString "http://127.0.0.1:26658") (goString "token")
      (goString "127.0.0.1:4200") (goString "udp") (goString "00ff")).served ∧
    (serve pickyHost (goString "http://127.0.0.1:26658") (goString "token")
      (goString "127.0.0.1:4200") (goString "udp") (goString "00ff")).closeCalls = 0 ∧
    (serve pickyHost (goString "http://127.0.0.1:26658") (goString "token")
      (goString "127.0.0.1:4200") (goString "udp") (goString "00ff")).fatalWith
      "failed to create network listener:" :=
  ⟨by decide, rfl, by decide, rfl,
   (serve_bind_failure pickyHost (goString "http://127.0.0.1:26658") (goString "token")
      (goString "127.0.0.1:4200") (goString "udp") (goString "00ff")
      (GoError.wrap "listen" (GoError.unknownNetwork (goString "udp"))) (by decide)).1,
   (serve_bind_failure pickyHost (goString "http://127.0.0.1:26658") (goString "token")
      (goString "127.0.0.1:4200") (goString "udp") (goString "00ff")
      (GoError.wrap "listen" (GoError.unknownNetwork (goString "udp"))) (by decide)).2.1,
   ((serve_bind_failure pickyHost (goString "http://127.0.0.1:26658") (goString "token")
      (goString "127.0.0.1:4200") (goString "udp") (goString "00ff")
      (GoError.wrap "listen" (GoError.unknownNetwork (goString "udp"))) (by decide)).2.2.2.2
      [0, 255] rfl (by decide) rfl).1⟩

/-! ## The order of the steps -/

theorem serve_step_order_aux (host : Host) (a t l n s : GoString) :
    (serve host a t l n s).trace.head? = some (Event.newClient a t) := by
  rcases serve_cases host a t l n s with ⟨e, _, hs⟩ | ⟨_, e, _, hs⟩ | ⟨_, _, e, _, hs⟩ |
    ⟨_, _, ns, e, _, _, hs⟩ | ⟨_, _, ns, _, _, _, hs⟩ | ⟨_, _, ns, _, _, _, hs⟩
  all_goals rw [hs]
  all_goals simp [fatal, servingTrace]

/-- C3, as stated, fails: on the namespace text "zz", which does not decode,
`serve` has already made the connect call `rpc.NewClient` when it ends in
`log.Fatalln("invalid hex value of a namespace:", ...)`. -/
theorem serve_connects_before_bad_namespace :
    (serve (plainHost none none) (goString "http://127.0.0.1:26658") (goString "token")
      (goString "127.0.0.1:4200") (goString "tcp") (goString "zz")).trace =
      [Event.newClient (goString "http://127.0.0.1:26658") (goString "token"),
       Event.fatalln "invalid hex value of a namespace:" (some (GoError.invalidByte 122))] ∧
    (serve (plainHost none none) (goString "http://127.0.0.1:26658") (goString "token")
      (goString "127.0.0.1:4200") (goString "tcp") (goString "zz")).outcome
      = Outcome.exited := by
  decide

/-- C3, amended: the steps of `serve` run in the order connect, namespace
validation, facade construction, bind, serve loop; the connect call
`rpc.NewClient(ctx, rpcAddress, rpcToken)` is the first call of every run. When
the connect fails, the run consists of that call and its `log.Fatalln`, the same
for every namespace text: the text is never looked at. A namespace text that
fails hex decoding or validation makes `serve` end in a `log.Fatalln` with no
facade built, the connect call having been made first. -/
theorem serve_step_order (host : Host) (a t l n s : GoString) :
    (serve host a t l n s).trace.head? = some (Event.newClient a t) ∧
    List.Pairwise (fun x y => stepRank x < stepRank y) (serve host a t l n s).trace ∧
    (∀ e, host.rpcNewClient a t = some e → ∀ s2,
      serve host a t l n s2 =
        { trace := [Event.newClient a t,
            Event.fatalln "failed to create celestia-node RPC client:" (some e)],
          outcome := Outcome.exited }) ∧
    (((hexDecode (List.replicate (s.length / 2) 0) s).err ≠ none ∨
      ∃ e, host.shareNewBlobNamespaceV0
        (hexDecode (List.replicate (s.length / 2) 0) s).dst = Except.error e) →
      (serve host a t l n s).outcome = Outcome.exited ∧
      (∀ ns, Event.newCelestiaDA ns ∉ (serve host a t l n s).trace) ∧
      (host.rpcNewClient a t = none →
        (serve host a t l n s).fatalWith "invalid hex value of a namespace:" ∨
        (serve host a t l n s).fatalWith "invalid namespace:")) := by
  refine ⟨serve_step_order_aux host a t l n s, serve_trace_sorted host a t l n s, ?_, ?_⟩
  · intro e he s2
    rcases serve_cases host a t l n s2 with ⟨e1, h1, hs⟩ | ⟨h1, _⟩ | ⟨h1, _⟩ |
      ⟨h1, _⟩ | ⟨h1, _⟩ | ⟨h1, _⟩
    · rw [he] at h1
      injection h1 with h1
      subst h1
      rw [hs]; rfl
    all_goals (rw [he] at h1; exact Option.noConfusion h1)
  · intro hbad
    rcases serve_cases host a t l n s with ⟨e1, h1, hs⟩ | ⟨_, e1, _, hs⟩ |
      ⟨_, _, e1, _, hs⟩ | ⟨_, h2, ns1, e1, h3, _⟩ | ⟨_, h2, ns1, h3, _⟩ |
      ⟨_, h2, ns1, h3, _⟩
    · refine ⟨by rw [hs]; rfl, by rw [hs]; simp [fatal], fun hc => ?_⟩
      rw [hc] at h1
      exact Option.noConfusion h1
    · refine ⟨by rw [hs]; rfl, by rw [hs]; simp [fatal], fun _ => Or.inl ?_⟩
      rw [hs]
      exact ⟨rfl, some e1, by simp [fatal]⟩
    · refine ⟨by rw [hs]; rfl, by rw [hs]; simp [fatal], fun _ => Or.inr ?_⟩
      rw [hs]
      exact ⟨rfl, some e1, by simp [fatal]⟩
    all_goals
      rcases hbad with hbad | ⟨e2, hbad⟩
      · exact absurd h2 hbad
      · rw [hbad] at h3
        exact Except.noConfusion h3

/-- C3, amended, at sample runs: a refused connection, and the text "zz" after a
connection that succeeds. -/
theorem serve_step_order_witness :
    refusingHost.rpcNewClient (goString "http://127.0.0.1:26658") (goString "token") =
      some (GoError.sentinel "connection refused") ∧
    serve refusingHost (goString "http://127.0.0.1:26658") (goString "token")
      (goString "127.0.0.1:4200") (goString "tcp") (goString "zz") =
      { trace := [Event.newClient (goString "http://127.0.0.1:26658") (goString "token"),
          Event.fatalln "failed to create celestia-node RPC client:"
            (some (GoError.sentinel "connection refused"))],
        outcome := Outcome.exited } ∧
    ((hexDecode (List.replicate ((goString "zz").length / 2) 0) (goString "zz")).err ≠ none ∨
      ∃ e, (plainHost none none).shareNewBlobNamespaceV0
        (hexDecode (List.replicate ((goString "zz").length / 2) 0) (goString "zz")).dst
        = Except.error e) ∧
    (serve (plainHost none none) (goString "http://127.0.0.1:26658") (goString "token")
      (goString "127.0.0.1:4200") (goString "tcp") (goString "zz")).outcome
      = Outcome.exited :=
  ⟨rfl,
   (serve_step_order refusingHost (goString "http://127.0.0.1:26658") (goString "token")
      (goString "127.0.0.1:4200") (goString "tcp") (goString "00ff")).2.2.1 _ rfl
      (goString "zz"),
   Or.inl (by decide),
   ((serve_step_order (plainHost none none) (goString "http://127.0.0.1:26658")
      (goString "token") (goString "127.0.0.1:4200") (goString "tcp")
      (goString "zz")).2.2.2 (Or.inl (by decide))).1⟩

/-! ## The namespace text -/

/-- C7: a namespace text of odd length, or with a character that is not a hex
digit, makes `serve` (once connected) end in `log.Fatalln("invalid hex value of a
namespace:", ...)` without any call of the namespace validation; and a text on
which `hex.Decode` succeeds has even length, holds hex digits only, and decodes
to exactly half as many bytes as it has characters. -/
theorem serve_hex_decoding (host : Host) (a t l n s : GoString) :
    (host.rpcNewClient a t = none →
      (s.length % 2 = 1 ∨ ∃ c ∈ s, ¬ IsHexDigit c) →
        (serve host a t l n s).fatalWith "invalid hex value of a namespace:" ∧
        ∀ b, Event.newBlobNamespaceV0 b ∉ (serve host a t l n s).trace) ∧
    ((hexDecode (List.replicate (s.length / 2) 0) s).err = none →
      s.length % 2 = 0 ∧ (∀ c ∈ s, IsHexDigit c) ∧
      (hexDecode (List.replicate (s.length / 2) 0) s).dst.length = s.length / 2 ∧
      (hexDecode (List.replicate (s.length / 2) 0) s).n = s.length / 2) := by
  constructor
  · intro hc hbad
    have herr : (hexDecode (List.replicate (s.length / 2) 0) s).err ≠ none := by
      intro hok
      have := (decodeLoop_ok_iff s _ 0).mp hok
      rcases hbad with hodd | ⟨c, hcmem, hcbad⟩
      · omega
      · exact hcbad (this.2 c hcmem)
    rcases serve_cases host a t l n s with ⟨e, h1, _⟩ | ⟨_, e, _, hs⟩ | ⟨_, h2, _⟩ |
      ⟨_, h2, _⟩ | ⟨_, h2, _⟩ | ⟨_, h2, _⟩
    · rw [hc] at h1; exact Option.noConfusion h1
    · rw [hs]
      exact ⟨⟨rfl, some e, by simp [fatal]⟩, by simp [fatal]⟩
    · exact absurd h2 herr
    · exact absurd h2 herr
    · exact absurd h2 herr
    · exact absurd h2 herr
  · intro hok
    have h := (decodeLoop_ok_iff s _ 0).mp hok
    refine ⟨h.1, h.2, ?_, ?_⟩
    · unfold hexDecode
      rw [decodeLoop_dst_length]
      simp
    · unfold hexDecode at hok ⊢
      rw [decodeLoop_n s _ 0 hok]
      simp

/-- C7 at sample texts: "abc" has odd length, and "00ff" decodes. -/
theorem serve_hex_decoding_witness :
    ((plainHost none none).rpcNewClient (goString "http://127.0.0.1:26658") (goString "token")
      = none ∧
     ((goString "abc").length % 2 = 1 ∨ ∃ c ∈ goString "abc", ¬ IsHexDigit c) ∧
     (serve (plainHost none none) (goString "http://127.0.0.1:26658") (goString "token")
        (goString "127.0.0.1:4200") (goString "tcp") (goString "abc")).fatalWith
        "invalid hex value of a namespace:") ∧
    ((hexDecode (List.replicate ((goString "00ff").length / 2) 0) (goString "00ff")).err = none ∧
     (hexDecode (List.replicate ((goString "00ff").length / 2) 0) (goString "00ff")).dst.length
       = (goString "00ff").length / 2) :=
  ⟨⟨rfl, Or.inl (by decide),
    ((serve_hex_decoding (plainHost none none) (goString "http://127.0.0.1:26658")
      (goString "token") (goString "127.0.0.1:4200") (goString "tcp") (goString "abc")).1 rfl
      (Or.inl (by decide))).1⟩,
   ⟨by decide,
    ((serve_hex_decoding (plainHost none none) (goString "http://127.0.0.1:26658")
      (goString "token") (goString "127.0.0.1:4200") (goString "tcp") (goString "00ff")).2
      (by decide)).2.2.1⟩⟩

/-- C9: on a host whose namespace constructor is the one the spec describes,
a namespace text that hex-decodes to a number of bytes other than the version-0
length makes `serve` (once connected) call the validation and end in
`log.Fatalln("invalid namespace:", ...)`; so does the 52-character text
"0001020304050607080910111213141516171819202122232425", which decodes to 26
bytes. -/
theorem serve_wrong_namespace_length (host : Host) (reservedOk : List Nat → Bool)
    (a t l n : GoString) (hc : host.rpcNewClient a t = none) :
    (∀ s : GoString, (hexDecode (List.replicate (s.length / 2) 0) s).err = none →
      (hexDecode (List.replicate (s.length / 2) 0) s).dst.length ≠ versionZeroLen →
        (serve (host.withSpecNamespace reservedOk) a t l n s).fatalWith "invalid namespace:" ∧
        Event.newBlobNamespaceV0 (hexDecode (List.replicate (s.length / 2) 0) s).dst ∈
          (serve (host.withSpecNamespace reservedOk) a t l n s).trace) ∧
    ((goString "0001020304050607080910111213141516171819202122232425").length = 52 ∧
     (hexDecode (List.replicate 26 0)
        (goString "0001020304050607080910111213141516171819202122232425")).err = none ∧
     (hexDecode (List.replicate 26 0)
        (goString "0001020304050607080910111213141516171819202122232425")).dst.length = 26 ∧
     (serve (host.withSpecNamespace reservedOk) a t l n
        (goString "0001020304050607080910111213141516171819202122232425")).fatalWith
        "invalid namespace:") := by
  have general : ∀ s : GoString, (hexDecode (List.replicate (s.length / 2) 0) s).err = none →
      (hexDecode (List.replicate (s.length / 2) 0) s).dst.length ≠ versionZeroLen →
        (serve (host.withSpecNamespace reservedOk) a t l n s).fatalWith "invalid namespace:" ∧
        Event.newBlobNamespaceV0 (hexDecode (List.replicate (s.length / 2) 0) s).dst ∈
          (serve (host.withSpecNamespace reservedOk) a t l n s).trace := by
    intro s hd hl
    have hv : (host.withSpecNamespace reservedOk).shareNewBlobNamespaceV0
        (hexDecode (List.replicate (s.length / 2) 0) s).dst =
        Except.error (GoError.sentinel "invalid namespace length") := by
      simp [Host.withSpecNamespace, NewBlobNamespaceV0, hl]
    rcases serve_cases (host.withSpecNamespace reservedOk) a t l n s with
      ⟨e, h1, _⟩ | ⟨_, e, h2, _⟩ | ⟨_, _, e, _, hs⟩ |
      ⟨_, _, ns, e, h3, _⟩ | ⟨_, _, ns, h3, _⟩ | ⟨_, _, ns, h3, _⟩
    · have : host.rpcNewClient a t = some e := h1
      rw [hc] at this; exact Option.noConfusion this
    · rw [hd] at h2; exact Option.noConfusion h2
    · rw [hs]
      exact ⟨⟨rfl, some e, by simp [fatal]⟩, by simp [fatal]⟩
    · rw [hv] at h3; exact Except.noConfusion h3
    · rw [hv] at h3; exact Except.noConfusion h3
    · rw [hv] at h3; exact Except.noConfusion h3
  refine ⟨general, by decide, by decide, by decide, ?_⟩
  exact (general (goString "0001020304050607080910111213141516171819202122232425")
    (by decide) (by decide)).1

/-- C9 at a sample host. -/
theorem serve_wrong_namespace_length_witness :
    (plainHost none none).rpcNewClient (goString "http://127.0.0.1:26658") (goString "token")
      = none ∧
    (serve ((plainHost none none).withSpecNamespace (fun _ => true))
      (goString "http://127.0.0.1:26658") (goString "token") (goString "127.0.0.1:4200")
      (goString "tcp")
      (goString "0001020304050607080910111213141516171819202122232425")).fatalWith
      "invalid namespace:" :=
  ⟨rfl, (serve_wrong_namespace_length (plainHost none none) (fun _ => true)
    (goString "http://127.0.0.1:26658") (goString "token") (goString "127.0.0.1:4200")
    (goString "tcp") rfl).2.2.2.2⟩

/-! ## Flags -/

theorem lookup_append_single (f : FlagSet) (x : Flag) (name : String) :
    FlagSet.lookup (f ++ [x]) name =
      (FlagSet.lookup f name).or (if x.name = name then some x else none) := by
  unfold FlagSet.lookup
  rw [List.find?_append]
  by_cases h : x.name = name <;> simp [h, List.find?_cons]

theorem lookup_cons (x : Flag) (xs : FlagSet) (name : String) :
    FlagSet.lookup (x :: xs) name = if x.name = name then some x else FlagSet.lookup xs name := by
  unfold FlagSet.lookup
  by_cases h : x.name = name <;> simp [h, List.find?_cons]

/-- A flag set added with `AddFlagSet` is consulted only for the names the
receiving set does not have yet. -/
theorem lookup_addFlagSet (newSet : FlagSet) : ∀ (f : FlagSet) (name : String),
    FlagSet.lookup (FlagSet.addFlagSet f newSet) name =
      (FlagSet.lookup f name).or (FlagSet.lookup newSet name) := by
  induction newSet with
  | nil =>
    intro f name
    have h0 : FlagSet.lookup [] name = none := rfl
    rw [h0, Option.or_none]
    rfl
  | cons x xs ih =>
    intro f name
    have hstep : FlagSet.addFlagSet f (x :: xs) =
        FlagSet.addFlagSet (if (FlagSet.lookup f x.name).isNone then f ++ [x] else f) xs := by
      simp [FlagSet.addFlagSet]
    rw [hstep, ih, lookup_cons]
    cases hx : FlagSet.lookup f x.name with
    | none =>
      simp only [Option.isNone_none, if_true, lookup_append_single]
      cases hn : FlagSet.lookup f name with
      | none => by_cases hxn : x.name = name <;> simp [hxn]
      | some fl => simp
    | some fx =>
      simp only [Option.isNone_some, Bool.false_eq_true, if_false]
      cases hn : FlagSet.lookup f name with
      | none =>
        have hxn : x.name ≠ name := by
          intro he
          rw [he, hn] at hx
          exact Option.noConfusion hx
        simp [hxn]
      | some fl => simp

theorem lookup_absent (f : FlagSet) (name : String) (h : ∀ fl ∈ f, fl.name ≠ name) :
    FlagSet.lookup f name = none := by
  unfold FlagSet.lookup
  rw [List.find?_eq_none]
  intro fl hfl
  simpa using h fl hfl

theorem lookup_foldl_absent (sets : List FlagSet) : ∀ (f : FlagSet) (name : String),
    (∀ set ∈ sets, ∀ fl ∈ set, fl.name ≠ name) →
      FlagSet.lookup (sets.foldl FlagSet.addFlagSet f) name = FlagSet.lookup f name := by
  induction sets with
  | nil => intro f name _; rfl
  | cons x xs ih =>
    intro f name h
    simp only [List.foldl_cons]
    rw [ih _ _ (fun set hs => h set (List.mem_cons_of_mem _ hs)), lookup_addFlagSet,
      lookup_absent x name (h x (List.mem_cons_self _ _))]
    cases FlagSet.lookup f name <;> rfl

theorem lookup_map (g : Flag → Flag) (hg : ∀ fl, (g fl).name = fl.name) (f : FlagSet)
    (name : String) : FlagSet.lookup (f.map g) name = (FlagSet.lookup f name).map g := by
  induction f with
  | nil => rfl
  | cons x xs ih =>
    rw [List.map_cons, lookup_cons, lookup_cons, hg]
    by_cases h : x.name = name
    · simp [h]
    · simp [h, ih]

/-- The flags of the command once `WithDataAvailabilityService` has run, for a
name no other flag set uses: the flag is the one of `grpcFlags`. -/
theorem lookup_merged (flags : List FlagSet) (cflags : FlagSet) (name : String)
    (hc : ∀ fl ∈ cflags, fl.name ≠ name)
    (hf : ∀ set ∈ flags, ∀ fl ∈ set, fl.name ≠ name) :
    FlagSet.lookup ((flags ++ [grpcFlags]).foldl FlagSet.addFlagSet cflags) name =
      FlagSet.lookup grpcFlags name := by
  rw [List.foldl_append]
  simp only [List.foldl_cons, List.foldl_nil]
  rw [lookup_addFlagSet, lookup_foldl_absent flags cflags name hf, lookup_absent cflags name hc]
  rfl

theorem markRequired_eq (f : FlagSet) (name : String) (fl : Flag)
    (h : FlagSet.lookup f name = some fl) :
    FlagSet.markRequired f name = some (f.map (Flag.mark name)) := by
  unfold FlagSet.markRequired
  rw [h]

theorem mark_name (name : String) (fl : Flag) : (Flag.mark name fl).name = fl.name := by
  unfold Flag.mark
  split <;> rfl

theorem mark_typ (name : String) (fl : Flag) : (Flag.mark name fl).typ = fl.typ := by
  unfold Flag.mark
  split <;> rfl

theorem mark_value (name : String) (fl : Flag) : (Flag.mark name fl).value = fl.value := by
  unfold Flag.mark
  split <;> rfl

theorem assigned_name (assign : String → Option GoString) (fl : Flag) :
    (Flag.assigned assign fl).name = fl.name := by
  unfold Flag.assigned
  split <;> rfl

theorem assigned_typ (assign : String → Option GoString) (fl : Flag) :
    (Flag.assigned assign fl).typ = fl.typ := by
  unfold Flag.assigned
  split <;> rfl

theorem assigned_value (assign : String → Option GoString) (fl : Flag) :
    (Flag.assigned assign fl).value = (assign fl.name).getD fl.value := by
  unfold Flag.assigned
  split <;> simp [*]

/-- The flags of the command after `WithDataAvailabilityService`, when no other
flag set uses the names of the gRPC flags. -/
theorem withService_eq (flags : List FlagSet) (c : Command)
    (hc : ∀ fl ∈ c.flags, fl.name ∉ grpcFlagNames)
    (hf : ∀ set ∈ flags, ∀ fl ∈ set, fl.name ∉ grpcFlagNames) :
    WithDataAvailabilityService flags c =
      some { flags :=
               (((flags ++ [grpcFlags]).foldl FlagSet.addFlagSet c.flags).map
                  (Flag.mark grpcTokenFlag)).map (Flag.mark grpcNamespaceFlag),
             preRun := some preRun } := by
  have hc1 : ∀ name ∈ grpcFlagNames, ∀ fl ∈ c.flags, fl.name ≠ name :=
    fun name hn fl hfl he => hc fl hfl (he ▸ hn)
  have hf1 : ∀ name ∈ grpcFlagNames, ∀ set ∈ flags, ∀ fl ∈ set, fl.name ≠ name :=
    fun name hn set hs fl hfl he => hf set hs fl hfl (he ▸ hn)
  have htok := lookup_merged flags c.flags grpcTokenFlag
    (hc1 _ (by decide)) (hf1 _ (by decide))
  have hns := lookup_merged flags c.flags grpcNamespaceFlag
    (hc1 _ (by decide)) (hf1 _ (by decide))
  have htok2 : FlagSet.lookup grpcFlags grpcTokenFlag = some
      { name := grpcTokenFlag, typ := "string", defValue := goString "",
        value := goString "", changed := false, required := false } := by decide
  have hns2 : FlagSet.lookup grpcFlags grpcNamespaceFlag = some
      { name := grpcNamespaceFlag, typ := "string", defValue := goString "",
        value := goString "", changed := false, required := false } := by decide
  unfold WithDataAvailabilityService
  simp only [markAllRequired]
  rw [markRequired_eq _ _ _ (htok.trans htok2)]
  simp only []
  have hns3 : FlagSet.lookup
      (((flags ++ [grpcFlags]).foldl FlagSet.addFlagSet c.flags).map
        (Flag.mark grpcTokenFlag)) grpcNamespaceFlag = some (Flag.mark grpcTokenFlag
      { name := grpcNamespaceFlag, typ := "string", defValue := goString "",
        value := goString "", changed := false, required := false }) := by
    rw [lookup_map _ (mark_name grpcTokenFlag), hns, hns2]
    rfl
  rw [markRequired_eq _ _ _ hns3]

/-- What `GetString` returns in the hook for a gRPC flag: the value from the
command line, or the default given in `grpcFlags`. -/
theorem getString_parsed (flags : List FlagSet) (cflags : FlagSet)
    (assign : String → Option GoString) (name : String) (d : GoString)
    (hc : ∀ fl ∈ cflags, fl.name ≠ name)
    (hf : ∀ set ∈ flags, ∀ fl ∈ set, fl.name ≠ name)
    (hg : FlagSet.lookup grpcFlags name = some
      { name := name, typ := "string", defValue := d, value := d, changed := false,
        required := false }) :
    FlagSet.getString (FlagSet.parse
      ((((flags ++ [grpcFlags]).foldl FlagSet.addFlagSet cflags).map
          (Flag.mark grpcTokenFlag)).map (Flag.mark grpcNamespaceFlag)) assign) name
      = flagValue assign name d := by
  unfold FlagSet.getString FlagSet.parse
  rw [lookup_map _ (assigned_name assign), lookup_map _ (mark_name grpcNamespaceFlag),
    lookup_map _ (mark_name grpcTokenFlag), lookup_merged flags cflags name hc hf, hg]
  simp only [Option.map_some', flagValue, assigned_typ, assigned_value, assigned_name,
    mark_typ, mark_value, mark_name, if_true]

/-- The hook after `WithDataAvailabilityService`: one call of `serve`, each
argument read from the flag of its meaning. -/
theorem runPreRun_eq (flags : List FlagSet) (c : Command)
    (assign : String → Option GoString)
    (hc : ∀ fl ∈ c.flags, fl.name ∉ grpcFlagNames)
    (hf : ∀ set ∈ flags, ∀ fl ∈ set, fl.name ∉ grpcFlagNames) :
    ∃ c2, WithDataAvailabilityService flags c = some c2 ∧
      runPreRun c2 assign =
        [{ rpcAddress := flagValue assign grpcAddrFlag (goString "http://127.0.0.1:26658"),
           rpcToken := flagValue assign grpcTokenFlag (goString ""),
           listenAddress := flagValue assign grpcListenFlag (goString ""),
           listenNetwork := flagValue assign grpcNetworkFlag (goString "tcp"),
           nsString := flagValue assign grpcNamespaceFlag (goString "") }] := by
  have hc1 : ∀ name ∈ grpcFlagNames, ∀ fl ∈ c.flags, fl.name ≠ name :=
    fun name hn fl hfl he => hc fl hfl (he ▸ hn)
  have hf1 : ∀ name ∈ grpcFlagNames, ∀ set ∈ flags, ∀ fl ∈ set, fl.name ≠ name :=
    fun name hn set hs fl hfl he => hf set hs fl hfl (he ▸ hn)
  refine ⟨_, withService_eq flags c hc hf, ?_⟩
  simp only [runPreRun, preRun]
  rw [getString_parsed flags c.flags assign grpcAddrFlag (goString "http://127.0.0.1:26658")
        (hc1 _ (by decide)) (hf1 _ (by decide)) (by decide),
      getString_parsed flags c.flags assign grpcTokenFlag (goString "")
        (hc1 _ (by decide)) (hf1 _ (by decide)) (by decide),
      getString_parsed flags c.flags assign grpcNamespaceFlag (goString "")
        (hc1 _ (by decide)) (hf1 _ (by decide)) (by decide),
      getString_parsed flags c.flags assign grpcListenFlag (goString "")
        (hc1 _ (by decide)) (hf1 _ (by decide)) (by decide),
      getString_parsed flags c.flags assign grpcNetworkFlag (goString "tcp")
        (hc1 _ (by decide)) (hf1 _ (by decide)) (by decide)]

/-! ## The pre-run hook -/

/-- C10: for every assignment of the five gRPC flags, the hook installed by
`WithDataAvailabilityService` starts `serve` exactly once, with
rpcAddress = grpc.address, rpcToken = grpc.token, listenAddress = grpc.listen,
listenNetwork = grpc.network and nsString = grpc.namespace; a flag the command
line does not set contributes its default: "http://127.0.0.1:26658" for the
address, "tcp" for the network, the empty string for the others. The flag sets
of the node are taken not to use the five names. -/
theorem preRun_launches_serve (flags : List FlagSet) (c : Command)
    (assign : String → Option GoString)
    (hc : ∀ fl ∈ c.flags, fl.name ∉ grpcFlagNames)
    (hf : ∀ set ∈ flags, ∀ fl ∈ set, fl.name ∉ grpcFlagNames) :
    ∃ c2, WithDataAvailabilityService flags c = some c2 ∧
      runPreRun c2 assign =
        [{ rpcAddress := flagValue assign grpcAddrFlag (goString "http://127.0.0.1:26658"),
           rpcToken := flagValue assign grpcTokenFlag (goString ""),
           listenAddress := flagValue assign grpcListenFlag (goString ""),
           listenNetwork := flagValue assign grpcNetworkFlag (goString "tcp"),
           nsString := flagValue assign grpcNamespaceFlag (goString "") }] ∧
      flagValue (fun _ => none) grpcAddrFlag (goString "http://127.0.0.1:26658")
        = goString "http://127.0.0.1:26658" ∧
      flagValue (fun _ => none) grpcNetworkFlag (goString "tcp") = goString "tcp" ∧
      flagValue (fun _ => none) grpcListenFlag (goString "") = [] := by
  obtain ⟨c2, h1, h2⟩ := runPreRun_eq flags c assign hc hf
  exact ⟨c2, h1, h2, rfl, rfl, rfl⟩

/-- C10 at a sample command line: the node brings a flag "node.store", and only
the token and the namespace are set. -/
theorem preRun_launches_serve_witness :
    (∀ fl ∈ bareCommand.flags, fl.name ∉ grpcFlagNames) ∧
    (∀ set ∈ [FlagSet.addString [] "node.store" (goString "~/.celestia")],
      ∀ fl ∈ set, fl.name ∉ grpcFlagNames) ∧
    ∃ c2, WithDataAvailabilityService
        [FlagSet.addString [] "node.store" (goString "~/.celestia")] bareCommand = some c2 ∧
      runPreRun c2 (fun name => if name = grpcTokenFlag then some (goString "secret")
          else if name = grpcNamespaceFlag then some (goString "00ff") else none) =
        [{ rpcAddress := goString "http://127.0.0.1:26658",
           rpcToken := goString "secret",
           listenAddress := [],
           listenNetwork := goString "tcp",
           nsString := goString "00ff" }] := by
  refine ⟨by decide, by decide, ?_⟩
  obtain ⟨c2, h1, h2, _⟩ := preRun_launches_serve
    [FlagSet.addString [] "node.store" (goString "~/.celestia")] bareCommand
    (fun name => if name = grpcTokenFlag then some (goString "secret")
      else if name = grpcNamespaceFlag then some (goString "00ff") else none)
    (by decide) (by decide)
  refine ⟨c2, h1, ?_⟩
  rw [h2]
  decide

/-- C4, as stated, fails: with neither the token nor the namespace on the command
line, the hook starts `serve` with the empty token, and `serve` calls
`rpc.NewClient`; on a host that refuses the connection the run ends on the
connect error, not on a configuration error. -/
theorem preRun_missing_flags_connects :
    (WithDataAvailabilityService [] bareCommand).map
      (fun c => (launch refusingHost (runPreRun c (fun _ => none))).map Run.trace) =
    some [[Event.newClient (goString "http://127.0.0.1:26658") (goString ""),
           Event.fatalln "failed to create celestia-node RPC client:"
             (some (GoError.sentinel "connection refused"))]] := by
  decide

/-- C4, amended: the hook makes no check of its own. The token and the namespace
flag carry the mark of `MarkFlagRequired`; when one of them is not on the command
line, `serve` is started all the same, with the empty string in its place, and
the first call of that run is the connect call `rpc.NewClient`. The flag sets of
the node are taken not to use the five names. -/
theorem preRun_missing_flags (flags : List FlagSet) (c : Command)
    (assign : String → Option GoString) (host : Host)
    (hc : ∀ fl ∈ c.flags, fl.name ∉ grpcFlagNames)
    (hf : ∀ set ∈ flags, ∀ fl ∈ set, fl.name ∉ grpcFlagNames) :
    ∃ c2 call, WithDataAvailabilityService flags c = some c2 ∧
      (∀ name ∈ [grpcTokenFlag, grpcNamespaceFlag],
        ∃ fl, FlagSet.lookup c2.flags name = some fl ∧ fl.required = true) ∧
      runPreRun c2 assign = [call] ∧
      (assign grpcTokenFlag = none → call.rpcToken = []) ∧
      (assign grpcNamespaceFlag = none → call.nsString = []) ∧
      (launch host (runPreRun c2 assign)).map (fun r => r.trace.head?) =
        [some (Event.newClient call.rpcAddress call.rpcToken)] := by
  have hc1 : ∀ name ∈ grpcFlagNames, ∀ fl ∈ c.flags, fl.name ≠ name :=
    fun name hn fl hfl he => hc fl hfl (he ▸ hn)
  have hf1 : ∀ name ∈ grpcFlagNames, ∀ set ∈ flags, ∀ fl ∈ set, fl.name ≠ name :=
    fun name hn set hs fl hfl he => hf set hs fl hfl (he ▸ hn)
  obtain ⟨c2, h1, h2⟩ := runPreRun_eq flags c assign hc hf
  refine ⟨c2, _, h1, ?_, h2, ?_, ?_, ?_⟩
  · have hc2 := withService_eq flags c hc hf
    rw [h1] at hc2
    injection hc2 with hc2
    intro name hname
    simp only [List.mem_cons, List.mem_singleton, List.not_mem_nil, or_false] at hname
    rw [hc2]
    simp only []
    rcases hname with hn | hn
    · subst hn
      rw [lookup_map _ (mark_name grpcNamespaceFlag), lookup_map _ (mark_name grpcTokenFlag),
        lookup_merged flags c.flags grpcTokenFlag (hc1 _ (by decide)) (hf1 _ (by decide))]
      exact ⟨_, rfl, by decide⟩
    · subst hn
      rw [lookup_map _ (mark_name grpcNamespaceFlag), lookup_map _ (mark_name grpcTokenFlag),
        lookup_merged flags c.flags grpcNamespaceFlag (hc1 _ (by decide)) (hf1 _ (by decide))]
      exact ⟨_, rfl, by decide⟩
  · intro h; simp [flagValue, h, goString]; rfl
  · intro h; simp [flagValue, h, goString]; rfl
  · rw [h2]
    simp only [launch, List.map_cons, List.map_nil]
    rw [(serve_step_order_aux host _ _ _ _ _)]

/-- C4, amended, at a sample run: nothing on the command line, and a backing
service that refuses the connection. -/
theorem preRun_missing_flags_witness :
    (∀ fl ∈ bareCommand.flags, fl.name ∉ grpcFlagNames) ∧
    (∀ set ∈ ([] : List FlagSet), ∀ fl ∈ set, fl.name ∉ grpcFlagNames) ∧
    ∃ c2 call, WithDataAvailabilityService [] bareCommand = some c2 ∧
      (∀ name ∈ [grpcTokenFlag, grpcNamespaceFlag],
        ∃ fl, FlagSet.lookup c2.flags name = some fl ∧ fl.required = true) ∧
      runPreRun c2 (fun _ => none) = [call] ∧
      ((fun _ => none : String → Option GoString) grpcTokenFlag = none →
        call.rpcToken = []) ∧
      ((fun _ => none : String → Option GoString) grpcNamespaceFlag = none →
        call.nsString = []) ∧
      (launch refusingHost (runPreRun c2 (fun _ => none))).map (fun r => r.trace.head?) =
        [some (Event.newClient call.rpcAddress call.rpcToken)] :=
  ⟨by decide, by decide,
   preRun_missing_flags [] bareCommand (fun _ => none) refusingHost (by decide) (by decide)⟩

end CelestiaDA
